import Mathlib

/-
Verification of the icon generator `create_icons.py`.

The script creates the directory `dist/icons` (with `exist_ok=True`),
then for each size in `[16, 48, 128]` builds a `size x size` RGB image
with background color `#4CAF50`, draws a white filled triangle whose
vertices are computed by floor division from `size`, saves the image to
`dist/icons/icon{size}.png`, and prints `Created icon{size}.png`.

The embedding below translates the arithmetic of the script directly,
and models the effects of the library calls it performs (polygon fill,
file write, directory creation, console print) as explicit pure data.
-/

namespace IconGen

/-- An RGB color, one channel per component. -/
abbrev Color := Nat × Nat × Nat

/-- The background color of the canvas, `#4CAF50` in the source
(`Image.new('RGB', (size, size), color='#4CAF50')`). -/
def background : Color := (0x4C, 0xAF, 0x50)

/-- The triangle fill color, `white` in the source
(`draw.polygon(points, fill='white')`), i.e. `#FFFFFF`. -/
def white : Color := (0xFF, 0xFF, 0xFF)

/-- `arrow_size = size // 3` from the source.  All quantities are
non-negative, so Nat division coincides with Python floor division. -/
def arrow_size (size : Nat) : Nat := size / 3

/-- `center_x = size // 2` from the source. -/
def center_x (size : Nat) : Nat := size / 2

/-- `center_y = size // 2` from the source. -/
def center_y (size : Nat) : Nat := size / 2

/-- The triangle vertex list from the source:
`[(center_x, center_y - arrow_size // 2),
  (center_x - arrow_size // 2, center_y + arrow_size // 2),
  (center_x + arrow_size // 2, center_y + arrow_size // 2)]`.
Coordinates are integers (Python ints); the subexpression
`arrow_size // 2` is Nat division, matching floor division on
non-negative operands. -/
def points (size : Nat) : List (Int × Int) :=
  [(((center_x size : Nat) : Int),
      ((center_y size : Nat) : Int) - ((arrow_size size / 2 : Nat) : Int)),
   (((center_x size : Nat) : Int) - ((arrow_size size / 2 : Nat) : Int),
      ((center_y size : Nat) : Int) + ((arrow_size size / 2 : Nat) : Int)),
   (((center_x size : Nat) : Int) + ((arrow_size size / 2 : Nat) : Int),
      ((center_y size : Nat) : Int) + ((arrow_size size / 2 : Nat) : Int))]

/-- The triangle vertices as the specification words them: apex at
`(center, center - size/6)`, base-left at `(center - size/6, center + size/6)`,
base-right at `(center + size/6, center + size/6)` with `center = size/2`,
all divisions floor division.  This definition follows the spec text and
is compared against `points`, which follows the source. -/
def pointsSpec (size : Nat) : List (Int × Int) :=
  [(((size / 2 : Nat) : Int), ((size / 2 : Nat) : Int) - ((size / 6 : Nat) : Int)),
   (((size / 2 : Nat) : Int) - ((size / 6 : Nat) : Int),
      ((size / 2 : Nat) : Int) + ((size / 6 : Nat) : Int)),
   (((size / 2 : Nat) : Int) + ((size / 6 : Nat) : Int),
      ((size / 2 : Nat) : Int) + ((size / 6 : Nat) : Int))]

/-- Cross product of the vectors `a - o` and `b - o`; its sign tells on
which side of the directed line `o -> a` the point `b` lies. -/
def cross (o a b : Int × Int) : Int :=
  (a.1 - o.1) * (b.2 - o.2) - (a.2 - o.2) * (b.1 - o.1)

/-- Models the region painted by `ImageDraw.polygon(points, fill=...)`
for a triangle: a pixel is painted iff its integer coordinate point lies
inside or on the closed triangle (all three edge cross products share a
sign or vanish).  PIL fills the polygon interior and draws its outline
in the same fill color, so boundary pixels are painted too. -/
def inTriangle (p0 p1 p2 q : Int × Int) : Bool :=
  let d0 := cross p0 p1 q
  let d1 := cross p1 p2 q
  let d2 := cross p2 p0 q
  (0 ≤ d0 && 0 ≤ d1 && 0 ≤ d2) || (d0 ≤ 0 && d1 ≤ 0 && d2 ≤ 0)

/-- The color of pixel `(x, y)` of the icon of side `size` after the
script has drawn the white triangle on the `#4CAF50` canvas. -/
def pixColor (size x y : Nat) : Color :=
  match points size with
  | [p0, p1, p2] =>
      if inTriangle p0 p1 p2 ((x : Int), (y : Int)) then white else background
  | _ => background

/-- An in-memory image, modelling `Image.new('RGB', (size, size), ...)`
followed by the polygon draw: explicit width and height (the source
passes the tuple `(size, size)`), and the pixel map. -/
structure Icon where
  width : Nat
  height : Nat
  pix : Nat → Nat → Color

/-- The icon the script builds for one `size`: a `size x size` canvas
with the triangle already rasterized. -/
def mkIcon (size : Nat) : Icon :=
  { width := size, height := size, pix := fun x y => pixColor size x y }

/-- The output path `f'dist/icons/icon{size}.png'` from the source. -/
def fileName (size : Nat) : String :=
  "dist/icons/icon" ++ toString size ++ ".png"

/-- The console line `f'Created icon{size}.png'` from the source. -/
def printedLine (size : Nat) : String :=
  "Created icon" ++ toString size ++ ".png"

/-- The hardcoded size list of the loop `for size in [16, 48, 128]`. -/
def sizes : List Nat := [16, 48, 128]

/-- The filesystem, modelled as an association list from path to file
content; lookups take the first (most recent) entry, so prepending a
pair models an overwriting write. -/
abbrev FS := List (String × Icon)

/-- Models `img.save(path)`: an overwriting file write. -/
def writeFile (fs : FS) (name : String) (content : Icon) : FS :=
  (name, content) :: fs

/-- The observable state of a run of the loop: the filesystem, the lines
printed so far, and the size whose processing raised an uncaught error,
if any. -/
structure GenState where
  fs : FS
  printed : List String
  error : Option Nat

/-- One loop iteration when it succeeds: build the icon, save it, print
the confirmation line (the source does exactly these, in this order). -/
def stepSize (st : GenState) (size : Nat) : GenState :=
  { st with
      fs := writeFile st.fs (fileName size) (mkIcon size),
      printed := st.printed ++ [printedLine size] }

/-- Runs the loop body over the remaining sizes.  `ok` is the failure
oracle: `ok s = false` means the filesystem write for size `s` fails.
The script catches nothing, so a failure records the offending size and
stops; no later size is attempted. -/
def runSizes (ok : Nat → Bool) : List Nat → GenState → GenState
  | [], st => st
  | s :: rest, st =>
      if ok s then runSizes ok rest (stepSize st s)
      else { st with error := some s }

/-- The state reached by running the loop over a size list with every
iteration succeeding. -/
def runAll (st : GenState) (l : List Nat) : GenState :=
  l.foldl stepSize st

/-- A full run of the loop from an initial filesystem, with failure
oracle `ok`. -/
def run (ok : Nat → Bool) (fs0 : FS) : GenState :=
  runSizes ok sizes { fs := fs0, printed := [], error := none }

/-- What the path `dist/icons` can be before the script runs. -/
inductive PathState where
  | absent
  | directory
  | file
deriving DecidableEq

/-- Models `os.makedirs('dist/icons', exist_ok=True)`: creates the
directory (recursively) when absent, is a no-op when it already is a
directory, and raises `FileExistsError` when the path exists as a
regular file (with `exist_ok=True` Python suppresses the error only for
an existing directory). -/
def makedirsExistOk : PathState → Except String PathState
  | .absent => .ok .directory
  | .directory => .ok .directory
  | .file => .error "FileExistsError"

/-- The whole script: create the directory, then run the loop.  An
uncaught error from `os.makedirs` terminates the process before any
icon is produced. -/
def program (dir : PathState) (ok : Nat → Bool) (fs0 : FS) :
    Except String GenState :=
  match makedirsExistOk dir with
  | .error e => .error e
  | .ok _ => .ok (run ok fs0)

/-- Whether a path matches the output naming pattern
`dist/icons/icon{size}.png`: it begins with `dist/icons/icon` and ends
with `.png` (compared on the character lists of the strings). -/
def isIconName (name : String) : Bool :=
  "dist/icons/icon".data.isPrefixOf name.data
    && ".png".data.isSuffixOf name.data

/-- Claim C1: for every size, the triangle vertices computed by the
program equal the spec formulas `(size/2, size/2 - size/6)`,
`(size/2 - size/6, size/2 + size/6)`, `(size/2 + size/6, size/2 + size/6)`
under floor division, and the nested expression `(size / 3) / 2` equals
`size / 6` for every non-negative size. -/
theorem points_eq_spec (size : Nat) :
    points size = pointsSpec size ∧ size / 3 / 2 = size / 6 := by
  refine ⟨?_, by omega⟩
  simp only [points, pointsSpec, arrow_size, center_x, center_y,
    List.cons.injEq, Prod.mk.injEq, and_true, true_and]
  omega

/-- Claim C2: running the generator with its hardcoded size list
produces exactly the files `dist/icons/icon16.png`,
`dist/icons/icon48.png`, `dist/icons/icon128.png` and prints exactly the
three lines `Created icon16.png`, `Created icon48.png`,
`Created icon128.png`, in that order (16, then 48, then 128).  The
filesystem lists the most recent write first; creation order is the
order of the printed lines. -/
theorem run_creates_icons :
    (run (fun _ => true) []).fs.map Prod.fst =
        [fileName 128, fileName 48, fileName 16]
    ∧ fileName 16 = "dist/icons/icon16.png"
    ∧ fileName 48 = "dist/icons/icon48.png"
    ∧ fileName 128 = "dist/icons/icon128.png"
    ∧ (run (fun _ => true) []).printed =
        ["Created icon16.png", "Created icon48.png", "Created icon128.png"]
    ∧ (run (fun _ => true) []).error = none := by
  refine ⟨rfl, ?_, ?_, ?_, ?_, rfl⟩ <;> decide

/-- Claim C3: for every size in `{16, 48, 128}`, exactly one output file
is produced for that size, the image written for it has pixel width and
height both equal to the size, and the background color `#4CAF50`
differs from the white triangle fill color. -/
theorem icon_invariants :
    ((run (fun _ => true) []).fs.filter (fun p => p.1 == fileName 16)).length = 1
    ∧ ((run (fun _ => true) []).fs.filter (fun p => p.1 == fileName 48)).length = 1
    ∧ ((run (fun _ => true) []).fs.filter (fun p => p.1 == fileName 128)).length = 1
    ∧ (mkIcon 16).width = 16 ∧ (mkIcon 16).height = 16
    ∧ (mkIcon 48).width = 48 ∧ (mkIcon 48).height = 48
    ∧ (mkIcon 128).width = 128 ∧ (mkIcon 128).height = 128
    ∧ background ≠ white := by
  refine ⟨?_, ?_, ?_, rfl, rfl, rfl, rfl, rfl, rfl, by decide⟩ <;> rfl

/-- Claim C4: for each generated image (sizes 16, 48, 128), the pixel at
`(size / 2, size / 2)` is the white foreground color: the image center
lies inside the filled triangle for these sizes. -/
theorem center_pixel_white :
    (mkIcon 16).pix (16 / 2) (16 / 2) = white
    ∧ (mkIcon 48).pix (48 / 2) (48 / 2) = white
    ∧ (mkIcon 128).pix (128 / 2) (128 / 2) = white := by
  decide

/-- Claim C5: for each generated image (sizes 16, 48, 128), the four
corner pixels `(0,0)`, `(size-1,0)`, `(0,size-1)`, `(size-1,size-1)` are
the background color `#4CAF50`: no corner lies in the triangle region. -/
theorem corner_pixels_background :
    ((mkIcon 16).pix 0 0 = background ∧ (mkIcon 16).pix 15 0 = background
      ∧ (mkIcon 16).pix 0 15 = background ∧ (mkIcon 16).pix 15 15 = background)
    ∧ ((mkIcon 48).pix 0 0 = background ∧ (mkIcon 48).pix 47 0 = background
      ∧ (mkIcon 48).pix 0 47 = background ∧ (mkIcon 48).pix 47 47 = background)
    ∧ ((mkIcon 128).pix 0 0 = background ∧ (mkIcon 128).pix 127 0 = background
      ∧ (mkIcon 128).pix 0 127 = background
      ∧ (mkIcon 128).pix 127 127 = background) := by
  decide

/-- Claim C6: the generator is deterministic.  From any initial
filesystem the run writes exactly the three fixed name/content pairs
(the contents `mkIcon s` depend only on the size, so two runs from the
same initial state produce identical files), and from an empty
filesystem the output directory ends up with exactly 3 files, all
matching the naming pattern `icon{size}.png`. -/
theorem run_deterministic (fs0 : FS) :
    (run (fun _ => true) fs0).fs =
        (fileName 128, mkIcon 128) :: (fileName 48, mkIcon 48) ::
          (fileName 16, mkIcon 16) :: fs0
    ∧ (run (fun _ => true) fs0).printed =
        [printedLine 16, printedLine 48, printedLine 128]
    ∧ ((run (fun _ => true) []).fs.map Prod.fst).length = 3
    ∧ ((run (fun _ => true) []).fs.map Prod.fst).all isIconName = true :=
  ⟨rfl, rfl, rfl, by decide⟩

/-- Claim C7: no failure is caught.  If every size before `s` succeeds
and processing `s` fails, the run ends in the error state for `s`, the
filesystem and console hold exactly what the earlier sizes wrote (no
rollback), and no size after `s` is attempted: the result is the state
after the prefix, with the error recorded. -/
theorem runSizes_abort (ok : Nat → Bool) (pre post : List Nat) (s : Nat)
    (st : GenState) (hpre : ∀ t ∈ pre, ok t = true) (hs : ok s = false) :
    runSizes ok (pre ++ s :: post) st =
      { runAll st pre with error := some s } := by
  induction pre generalizing st with
  | nil =>
      simp [runSizes, runAll, hs]
  | cons a l ih =>
      have ha : ok a = true := hpre a (List.mem_cons_self a l)
      have hl : ∀ t ∈ l, ok t = true :=
        fun t ht => hpre t (List.mem_cons_of_mem a ht)
      simp only [List.cons_append, runSizes, ha, if_true, runAll,
        List.foldl_cons]
      exact ih (stepSize st a) hl

/-- Witness for C7: with an oracle that lets only size 16 succeed, the
run writes the file for 16, then aborts at 48 and never reaches 128. -/
theorem runSizes_abort_witness :
    runSizes (fun t => t == 16) ([16] ++ 48 :: [128]) ⟨[], [], none⟩ =
      { runAll ⟨[], [], none⟩ [16] with error := some 48 } :=
  runSizes_abort (fun t => t == 16) [16] [128] 48 ⟨[], [], none⟩
    (by decide) (by decide)

/-- Claim C8: the directory-creation step succeeds (creating the
directory) when `dist/icons` is missing, succeeds as a no-op when it is
already a directory, and fails — the program raises instead of silently
continuing, producing no icon — when the path exists as a regular
file. -/
theorem makedirs_behavior (ok : Nat → Bool) (fs0 : FS) :
    makedirsExistOk .absent = .ok .directory
    ∧ makedirsExistOk .directory = .ok .directory
    ∧ program .absent ok fs0 = .ok (run ok fs0)
    ∧ program .directory ok fs0 = .ok (run ok fs0)
    ∧ program .file ok fs0 = .error "FileExistsError" :=
  ⟨rfl, rfl, rfl, rfl, rfl⟩

/-- Claim C9: for every positive size, every computed triangle vertex
coordinate lies within the canvas: each coordinate `c` of each vertex
satisfies `0 ≤ c ≤ size - 1`, so the triangle never extends outside the
`size x size` buffer. -/
theorem points_within_bounds (size : Nat) (h : 0 < size) :
    ∀ p ∈ points size,
      0 ≤ p.1 ∧ p.1 ≤ (size : Int) - 1 ∧ 0 ≤ p.2 ∧ p.2 ≤ (size : Int) - 1 := by
  have h6 : arrow_size size / 2 = size / 6 := by
    simp only [arrow_size]
    omega
  intro p hp
  simp only [points, h6, center_x, center_y, List.mem_cons,
    List.not_mem_nil, or_false] at hp
  rcases hp with rfl | rfl | rfl <;> dsimp only <;>
    refine ⟨?_, ?_, ?_, ?_⟩ <;> omega

/-- Witness for C9: the apex `(8, 6)` of the size-16 icon is in
bounds. -/
theorem points_within_bounds_witness :
    0 < 16 ∧ ((8 : Int), (6 : Int)) ∈ points 16
    ∧ (0 ≤ ((8 : Int), (6 : Int)).1
        ∧ ((8 : Int), (6 : Int)).1 ≤ (16 : Int) - 1
        ∧ 0 ≤ ((8 : Int), (6 : Int)).2
        ∧ ((8 : Int), (6 : Int)).2 ≤ (16 : Int) - 1) :=
  ⟨by decide, by decide,
    points_within_bounds 16 (by decide) ((8 : Int), (6 : Int)) (by decide)⟩

/-- Claim C10: for every positive size below 6 the half-arrow offset
`(size / 3) / 2` is 0, so all three vertices coincide at
`(size / 2, size / 2)` and the triangle degenerates to a point. -/
theorem points_degenerate_small (size : Nat) (h0 : 0 < size)
    (h6 : size < 6) :
    arrow_size size / 2 = 0
    ∧ points size =
        [(((size / 2 : Nat) : Int), ((size / 2 : Nat) : Int)),
         (((size / 2 : Nat) : Int), ((size / 2 : Nat) : Int)),
         (((size / 2 : Nat) : Int), ((size / 2 : Nat) : Int))] := by
  constructor
  · simp only [arrow_size]
    omega
  · simp only [points, arrow_size, center_x, center_y, List.cons.injEq,
      Prod.mk.injEq, and_true, true_and]
    omega

/-- Witness for C10: at size 3 the three vertices all equal `(1, 1)`. -/
theorem points_degenerate_small_witness :
    0 < 3 ∧ 3 < 6
    ∧ (arrow_size 3 / 2 = 0
        ∧ points 3 = [((1 : Int), (1 : Int)), ((1 : Int), (1 : Int)),
            ((1 : Int), (1 : Int))]) :=
  ⟨by decide, by decide, points_degenerate_small 3 (by decide) (by decide)⟩

end IconGen
